import Mathlib

/-!
Verification development for the `whatsapp-qms` webhook receiver
(`src/app.js` and the `Message` normalizer in `services/message.js`).

The JavaScript code is duck-typed over parsed JSON values, so we embed it
over an explicit JSON-like value type `JVal` that also carries the JS
`undefined` value.  Property access on `undefined`/`null` throws a
`TypeError` in JS; we model every operation that can throw in the
`Except JsErr` monad.  Handler invocations (the `Conversation.*` calls)
are recorded as a list of `Call`s instead of performing outbound I/O.
-/

namespace WhatsappQMS

/-- A parsed-JSON / JavaScript value.  `undefined` is JS `undefined` (absent
property); `null` is JSON `null`. -/
inductive JVal where
  | undefined : JVal
  | null : JVal
  | bool : Bool → JVal
  | num : Int → JVal
  | str : String → JVal
  | arr : List JVal → JVal
  | obj : List (String × JVal) → JVal

/-- Errors a request-processing step can raise: a thrown `TypeError`
(property access or `.forEach` on an unsuitable value) or the explicit
`Error("Couldn't validate the request signature.")`. -/
inductive JsErr where
  | typeError : JsErr
  | sigMismatch : JsErr
deriving DecidableEq

/-- JS truthiness of a value. -/
def truthy : JVal → Bool
  | .undefined => false
  | .null => false
  | .bool b => b
  | .num n => n != 0
  | .str s => s != ""
  | .arr _ => true
  | .obj _ => true

/-- JS strict equality `v === s` against a string literal (the only
comparisons the code performs). -/
def strictEqStr : JVal → String → Bool
  | .str t, s => t == s
  | _, _ => false

/-- JS property read `v[k]`: throws `TypeError` on `undefined`/`null`,
returns the field of an object (or `undefined` when absent), and
`undefined` for the (non-numeric, non-builtin) properties of any other
value. -/
def getField : JVal → String → Except JsErr JVal
  | .undefined, _ => .error .typeError
  | .null, _ => .error .typeError
  | .obj fs, k => .ok ((fs.lookup k).getD .undefined)
  | _, _ => .ok .undefined

/-- JS `String.prototype.split` with a one-character separator, on the
character list: `"a=b=c"` ↦ `["a","b","c"]`, `""` ↦ `[""]`. -/
def splitOnChar (c : Char) : List Char → List (List Char)
  | [] => [[]]
  | x :: xs =>
    if x = c then [] :: splitOnChar c xs
    else
      match splitOnChar c xs with
      | [] => [[x]]
      | y :: ys => (x :: y) :: ys

/-- `signature.split("=")` from `verifyRequestSignature`. -/
def jsSplitEq (s : String) : List String :=
  (splitOnChar '=' s.data).map (fun cs => String.mk cs)

/-- `elements[1]` of `signature.split("=")`: the hash part the verifier
compares (`undefined`, i.e. `none`, when the header has no `=`). -/
def sigHashOf (signature : String) : Option String :=
  (jsSplitEq signature)[1]?

/-- The configuration values `verifyRequestSignature` and the webhook
routes read (`config.appSecret`, `config.igAppSecret`,
`config.verifyToken`).  `igAppSecret` is `none` when the environment
variable is absent (JS `undefined`). -/
structure Config where
  appSecret : String
  igAppSecret : Option String
  verifyToken : String

/-- `verifyRequestSignature(req, res, buf)` from `src/app.js` lines
154-200.  `hmac secret body` stands for
`crypto.createHmac("sha256", secret).update(body).digest("hex")`; the
verifier only ever compares its output strings, so it is a parameter.
A missing (or empty, hence falsy) header only logs a warning and returns;
a present header is split on `"="`, `elements[1]` is compared with the
digest under `config.appSecret`, then — when `config.igAppSecret` is
truthy and differs from `config.appSecret` — with the digest under
`config.igAppSecret`.  When neither matches, the mismatch logging runs
first: if `config.igAppSecret` is undefined, the guard
`config.igAppSecret !== config.appSecret` (line 191) is true and line
194 evaluates `config.igAppSecret.substring(0, 4)` — a property read on
`undefined` that throws a `TypeError` before the explicit
`throw new Error(...)` on line 198 is reached; if `config.igAppSecret`
is any string (even empty or equal to the primary), `substring` is safe
and the explicit signature error is thrown. -/
def verifyRequestSignature (hmac : String → String → String) (cfg : Config)
    (signature : Option String) (buf : String) : Except JsErr Unit :=
  match signature with
  | none => .ok ()
  | some sig =>
    if sig = "" then .ok ()
    else
      let signatureHash := sigHashOf sig
      let expectedHash := hmac cfg.appSecret buf
      if signatureHash = some expectedHash then .ok ()
      else
        match cfg.igAppSecret with
        | some ig =>
          if ig ≠ "" ∧ ig ≠ cfg.appSecret then
            if signatureHash = some (hmac ig buf) then .ok ()
            else .error .sigMismatch
          else .error .sigMismatch
        | none => .error .typeError

/-- A recorded handler invocation (`Conversation.handleStatus`,
`Conversation.handleMessage`, `Conversation.handleInstagramMessage`,
`Conversation.handleInstagramStatus`). -/
inductive Call where
  | handleStatus : JVal → JVal → Call
  | handleMessage : JVal → JVal → Call
  | handleInstagramMessage : JVal → JVal → Call
  | handleInstagramStatus : JVal → JVal → Call

/-- JS `v.forEach(f)` restricted to the uses in the POST handler: calls
`f` on each element of an array in order, collecting the recorded handler
invocations; on any non-array value (including `undefined`) it throws
(`.forEach` is absent or not a function). -/
def forEachJ (v : JVal) (f : JVal → Except JsErr (List Call)) :
    Except JsErr (List Call) :=
  match v with
  | .arr xs => (xs.mapM f).map List.flatten
  | _ => .error .typeError

/-- The ternary `entry.id && entry.id !== "0" ? entry.id :
messagingEvent.recipient.id` (lines 96-99 and 127-130 of `src/app.js`). -/
def resolveBusinessId (entryId : JVal) (ev : JVal) : Except JsErr JVal :=
  if truthy entryId && !(strictEqStr entryId "0") then .ok entryId
  else do
    let recipient ← getField ev "recipient"
    getField recipient "id"

/-- Processing of one element of `entry.changes` in the
`whatsapp_business_account` branch (lines 61-79). -/
def waChange (change : JVal) : Except JsErr (List Call) := do
  let value ← getField change "value"
  if truthy value then
    let metadata ← getField value "metadata"
    let senderPhoneNumberId ← getField metadata "phone_number_id"
    let statuses ← getField value "statuses"
    let statusCalls ←
      if truthy statuses then
        forEachJ statuses (fun status => .ok [.handleStatus senderPhoneNumberId status])
      else .ok []
    let messages ← getField value "messages"
    let messageCalls ←
      if truthy messages then
        forEachJ messages (fun rawMessage => .ok [.handleMessage senderPhoneNumberId rawMessage])
      else .ok []
    .ok (statusCalls ++ messageCalls)
  else .ok []

/-- Processing of one element of `entry.messaging` in the `instagram`
branch (lines 86-106): resolve the business id, then dispatch on
`message` / `delivery` / `read`. -/
def igMessagingEvent (entry : JVal) (ev : JVal) : Except JsErr (List Call) := do
  let entryId ← getField entry "id"
  let businessId ← resolveBusinessId entryId ev
  let message ← getField ev "message"
  if truthy message then .ok [.handleInstagramMessage businessId ev]
  else do
    let delivery ← getField ev "delivery"
    if truthy delivery then .ok [.handleInstagramStatus businessId ev]
    else do
      let readF ← getField ev "read"
      if truthy readF then .ok [.handleInstagramStatus businessId ev]
      else .ok []

/-- Processing of one element of `entry.changes` in the `instagram`
branch (lines 108-134): adapt the change into a `messaging`-shaped
event, resolve the business id, dispatch as a message. -/
def igChange (entry : JVal) (change : JVal) : Except JsErr (List Call) := do
  let field ← getField change "field"
  if strictEqStr field "messages" then do
    let value ← getField change "value"
    let sender ← getField value "sender"
    let recipient ← getField value "recipient"
    let timestamp ← getField value "timestamp"
    let message ← getField value "message"
    let messagingEvent := JVal.obj
      [("sender", sender), ("recipient", recipient),
       ("timestamp", timestamp), ("message", message)]
    let entryId ← getField entry "id"
    let businessId ← resolveBusinessId entryId messagingEvent
    .ok [.handleInstagramMessage businessId messagingEvent]
  else .ok []

/-- Processing of one element of `req.body.entry` in the `instagram`
branch (lines 83-136): a truthy `messaging` array wins over `changes`. -/
def processIgEntry (entry : JVal) : Except JsErr (List Call) := do
  let messaging ← getField entry "messaging"
  if truthy messaging then forEachJ messaging (igMessagingEvent entry)
  else do
    let changes ← getField entry "changes"
    if truthy changes then forEachJ changes (igChange entry)
    else .ok []

/-- The dispatch portion of the POST `/webhook` handler (lines 59-137):
branch on `req.body.object` and walk the nested arrays, recording every
handler invocation. -/
def dispatch (body : JVal) : Except JsErr (List Call) := do
  let objectField ← getField body "object"
  if strictEqStr objectField "whatsapp_business_account" then do
    let entries ← getField body "entry"
    forEachJ entries (fun entry => do
      let changes ← getField entry "changes"
      forEachJ changes waChange)
  else if strictEqStr objectField "instagram" then do
    let entries ← getField body "entry"
    forEachJ entries processIgEntry
  else .ok []

/-- The full POST `/webhook` handler (lines 53-140): dispatch, then
`res.status(200).send("EVENT_RECEIVED")`.  A thrown `TypeError`
propagates (Express turns it into a 500 response instead). -/
def postWebhook (body : JVal) : Except JsErr (List Call × Nat × String) :=
  (dispatch body).map (fun calls => (calls, 200, "EVENT_RECEIVED"))

/-- The POST pipeline: the `json` body-parser middleware runs
`verifyRequestSignature` on the raw bytes `buf` before the parsed `body`
reaches the route handler; a signature error aborts the request. -/
def handlePost (hmac : String → String → String) (cfg : Config)
    (signature : Option String) (buf : String) (body : JVal) :
    Except JsErr (List Call × Nat × String) := do
  verifyRequestSignature hmac cfg signature buf
  postWebhook body

/-- The query parameters the GET `/webhook` handler reads
(`hub.mode`, `hub.verify_token`, `hub.challenge`); `none` is an absent
parameter (JS `undefined`). -/
structure Query where
  hubMode : Option String
  hubVerifyToken : Option String
  hubChallenge : Option String

/-- The GET `/webhook` handler (lines 39-50): `403` unless
`hub.mode == "subscribe"` and `hub.verify_token` equals the configured
token, else `200` echoing `hub.challenge`.  The result is
(status, body); `res.sendStatus(403)` sends no challenge (`none`). -/
def getWebhook (cfg : Config) (q : Query) : Nat × Option String :=
  if q.hubMode ≠ some "subscribe" ∨ q.hubVerifyToken ≠ some cfg.verifyToken then
    (403, none)
  else (200, q.hubChallenge)

/-- The normalized message record built by the `Message` class
(`services/message.js`).  `text` is `undefined` when the constructor does not
assign `this.text`. -/
structure MessageRec where
  id : JVal
  type : JVal
  text : JVal
  senderPhoneNumber : JVal

/-- The type/text resolution block of the `Message` constructor
(`services/message.js` lines 14-26), producing the pair
(`this.type`, `this.text`) with `this.text = undefined` when the constructor
leaves it unassigned: `type === "interactive"` takes
`interactive.button_reply.id` (throwing when that shape is absent);
else a truthy `text` gives type `"text"` with `text.body || text`;
else a truthy `message` with truthy `message.text` gives type `"text"`
with that nested text; else `"unknown"`. -/
def msgTypeText (raw : JVal) : Except JsErr (JVal × JVal) := do
  let ty ← getField raw "type"
  if strictEqStr ty "interactive" then do
    let interactive ← getField raw "interactive"
    let buttonReply ← getField interactive "button_reply"
    let replyId ← getField buttonReply "id"
    .ok (replyId, JVal.undefined)
  else do
    let textF ← getField raw "text"
    if truthy textF then do
      let body ← getField textF "body"
      .ok (JVal.str "text", if truthy body then body else textF)
    else do
      let message ← getField raw "message"
      if truthy message then do
        let messageText ← getField message "text"
        if truthy messageText then .ok (JVal.str "text", messageText)
        else .ok (JVal.str "unknown", JVal.undefined)
      else .ok (JVal.str "unknown", JVal.undefined)

/-- The sender resolution of the `Message` constructor (line 28-29):
`rawMessage.from || (rawMessage.sender ? rawMessage.sender.id :
undefined)`. -/
def msgSender (raw : JVal) : Except JsErr JVal := do
  let fromF ← getField raw "from"
  if truthy fromF then .ok fromF
  else do
    let senderF ← getField raw "sender"
    if truthy senderF then getField senderF "id"
    else .ok JVal.undefined

/-- `new Message(rawMessage)` (`services/message.js` lines 10-31):
`this.id = rawMessage.id`, then the type/text block, then the sender
resolution. -/
def mkMessage (raw : JVal) : Except JsErr MessageRec := do
  let id ← getField raw "id"
  let typeText ← msgTypeText raw
  let sender ← msgSender raw
  .ok ⟨id, typeText.1, typeText.2, sender⟩

/-! ## Helper lemmas -/

/-- `bind` on a successful `Except` computation. -/
@[simp] theorem exceptBindOk {α β : Type} (a : α) (f : α → Except JsErr β) :
    (Except.ok a >>= f : Except JsErr β) = f a := rfl

/-- `bind` on a failed `Except` computation. -/
@[simp] theorem exceptBindErr {α β : Type} (e : JsErr) (f : α → Except JsErr β) :
    (Except.error e >>= f : Except JsErr β) = Except.error e := rfl

/-- Field read of an object, as a pure value. -/
def objGet (fs : List (String × JVal)) (k : String) : JVal :=
  (fs.lookup k).getD .undefined

theorem getField_obj (fs : List (String × JVal)) (k : String) :
    getField (.obj fs) k = .ok (objGet fs k) := rfl

/-- Pure value of a JS property read on a receiver that is not
`undefined`/`null` (where `getField` cannot throw). -/
def getFieldVal (v : JVal) (k : String) : JVal :=
  match v with
  | .obj fs => objGet fs k
  | _ => .undefined

theorem getField_of_truthy {v : JVal} (k : String) (h : truthy v = true) :
    getField v k = .ok (getFieldVal v k) := by
  cases v with
  | undefined => exact Bool.noConfusion h
  | null => exact Bool.noConfusion h
  | bool b => rfl
  | num n => rfl
  | str s => rfl
  | arr xs => rfl
  | obj fs => rfl

theorem sigHashOf_empty : sigHashOf "" = none := rfl

/-! ## Claim theorems -/

/-- C7: a POST request with no signature header is non-fatal: the
verifier returns normally — for every digest function, configuration and
body, so no digest comparison can influence the outcome — and the
request proceeds to normal processing unverified (the pipeline result is
exactly the unverified POST handler's result). -/
theorem missing_signature_header_proceeds_unverified
    (hmac : String → String → String) (cfg : Config) (buf : String)
    (body : JVal) :
    verifyRequestSignature hmac cfg none buf = .ok () ∧
    handlePost hmac cfg none buf body = postWebhook body :=
  ⟨rfl, rfl⟩

/-- C5: GET `/webhook` answers 200 echoing `hub.challenge` exactly when
`hub.mode` is `"subscribe"` and `hub.verify_token` equals the configured
token; otherwise it answers 403 with no body, so the challenge is never
echoed. -/
theorem get_webhook_handshake (cfg : Config) (q : Query) :
    (q.hubMode = some "subscribe" ∧ q.hubVerifyToken = some cfg.verifyToken →
      getWebhook cfg q = (200, q.hubChallenge)) ∧
    (q.hubMode ≠ some "subscribe" ∨ q.hubVerifyToken ≠ some cfg.verifyToken →
      getWebhook cfg q = (403, none)) := by
  constructor
  · intro h
    simp [getWebhook, h.1, h.2]
  · intro h
    rw [getWebhook, if_pos h]

/-- Closed instance of C5 at concrete inputs. -/
theorem get_webhook_handshake_witness :
    getWebhook ⟨"s", none, "tok"⟩ ⟨some "subscribe", some "tok", some "ch"⟩ =
      (200, some "ch") ∧
    getWebhook ⟨"s", none, "tok"⟩ ⟨some "subscribe", some "bad", some "ch"⟩ =
      (403, none) :=
  ⟨(get_webhook_handshake ⟨"s", none, "tok"⟩
      ⟨some "subscribe", some "tok", some "ch"⟩).1 ⟨rfl, rfl⟩,
   (get_webhook_handshake ⟨"s", none, "tok"⟩
      ⟨some "subscribe", some "bad", some "ch"⟩).2 (Or.inr (by decide))⟩

/-- C4: the kind-B (instagram) business id resolution: a truthy
entry-level id different from the sentinel `"0"` is used as is; a falsy
entry id or the sentinel `"0"` falls back to the event's
`recipient.id`. -/
theorem resolve_business_id_spec (entryId ev : JVal) :
    (truthy entryId = true → strictEqStr entryId "0" = false →
      resolveBusinessId entryId ev = .ok entryId) ∧
    (∀ recipient rid,
      getField ev "recipient" = .ok recipient →
      getField recipient "id" = .ok rid →
      truthy entryId = false ∨ strictEqStr entryId "0" = true →
      resolveBusinessId entryId ev = .ok rid) := by
  constructor
  · intro h1 h2
    simp [resolveBusinessId, h1, h2]
  · intro recipient rid hr hid h
    have hcond : (truthy entryId && !(strictEqStr entryId "0")) = false := by
      rcases h with h | h <;> simp [h]
    simp [resolveBusinessId, hcond, hr, hid]

/-- Closed instance of C4: entry id `"0"` with recipient id `"12345"`
resolves to `"12345"`; entry id `"98765"` resolves to `"98765"`. -/
theorem resolve_business_id_spec_witness :
    resolveBusinessId (.str "0")
        (.obj [("recipient", .obj [("id", .str "12345")])]) =
      .ok (.str "12345") ∧
    resolveBusinessId (.str "98765")
        (.obj [("recipient", .obj [("id", .str "777")])]) =
      .ok (.str "98765") :=
  ⟨(resolve_business_id_spec (.str "0")
      (.obj [("recipient", .obj [("id", .str "12345")])])).2
      (.obj [("id", .str "12345")]) (.str "12345") rfl rfl (Or.inr rfl),
   (resolve_business_id_spec (.str "98765")
      (.obj [("recipient", .obj [("id", .str "777")])])).1 rfl rfl⟩

/-- C8: when the secondary secret is absent or equal to the primary, the
verifier skips the redundant second comparison, and its accept/reject
result on every (header, body) pair equals that of single-secret
verification under the primary secret alone: one run accepts exactly
when the other does.  (Only the accept/reject outcome coincides: on
reject with the secondary absent, the mismatch logging itself throws a
`TypeError` — `config.igAppSecret.substring` on `undefined`, line 194 —
while with two equal secrets the explicit signature error is thrown, so
the thrown errors differ.) -/
theorem secondary_secret_redundant (hmac : String → String → String)
    (appS vt : String) (ig : Option String) (signature : Option String)
    (buf : String) (h : ig = none ∨ ig = some appS) :
    verifyRequestSignature hmac ⟨appS, ig, vt⟩ signature buf = .ok () ↔
      verifyRequestSignature hmac ⟨appS, none, vt⟩ signature buf =
        .ok () := by
  rcases h with h | h <;> subst h
  · exact Iff.rfl
  · cases signature with
    | none => exact Iff.rfl
    | some sig =>
      simp only [verifyRequestSignature]
      by_cases hs : sig = ""
      · simp [hs]
      · rw [if_neg hs, if_neg hs]
        by_cases hm : sigHashOf sig = some (hmac appS buf)
        · rw [if_pos hm, if_pos hm]
        · rw [if_neg hm, if_neg hm]
          simp [hm]

/-- Closed instance of C8 at concrete inputs: with the secondary equal
to the primary, a header accepted under the two-secret configuration is
accepted under the primary alone, and conversely. -/
theorem secondary_secret_redundant_witness :
    (verifyRequestSignature (fun s b => s ++ b) ⟨"k", some "k", "t"⟩
        (some "sha256=x") "b" = .ok () ↔
      verifyRequestSignature (fun s b => s ++ b) ⟨"k", none, "t"⟩
        (some "sha256=x") "b" = .ok ()) :=
  secondary_secret_redundant (fun s b => s ++ b) "k" "t" (some "k")
    (some "sha256=x") "b" (Or.inr rfl)

/-- Characterization of the verifier on a present, non-empty header with
both secrets configured: it accepts exactly when `elements[1]` matches
the digest under either secret.  (When the secrets coincide the code
skips the second comparison, which cannot change this outcome.) -/
theorem verify_some_eq (hmac : String → String → String)
    (appS ig vt sig buf : String) (hne : sig ≠ "") (hig : ig ≠ "") :
    verifyRequestSignature hmac ⟨appS, some ig, vt⟩ (some sig) buf =
      if sigHashOf sig = some (hmac appS buf) ∨
         sigHashOf sig = some (hmac ig buf)
      then .ok () else .error .sigMismatch := by
  simp only [verifyRequestSignature, if_neg hne]
  by_cases h1 : sigHashOf sig = some (hmac appS buf)
  · simp [h1]
  · rw [if_neg h1]
    by_cases h2 : ig = appS
    · subst h2
      have hcond : ¬(ig ≠ "" ∧ ig ≠ ig) := by simp
      rw [if_neg hcond, if_neg (by simpa using h1)]
    · rw [if_pos ⟨hig, h2⟩]
      by_cases h3 : sigHashOf sig = some (hmac ig buf)
      · rw [if_pos h3, if_pos (Or.inr h3)]
      · rw [if_neg h3, if_neg (by simp [h1, h3])]

/-- C1: with a primary and a secondary secret configured, the verifier
returns normally exactly when the hex digest carried in the signature
header (`elements[1]` of the split on `"="`) equals the HMAC-SHA256 hex
digest of the raw body under the primary secret or under the secondary
secret; when it matches neither, the verifier throws the signature
mismatch error and the whole POST pipeline aborts with it, so the
request is not processed further. -/
theorem verify_two_secrets (hmac : String → String → String)
    (appS ig vt sig buf hash : String) (hig : ig ≠ "")
    (hsig : sigHashOf sig = some hash) :
    (verifyRequestSignature hmac ⟨appS, some ig, vt⟩ (some sig) buf =
        .ok () ↔
      hash = hmac appS buf ∨ hash = hmac ig buf) ∧
    (¬(hash = hmac appS buf ∨ hash = hmac ig buf) →
      verifyRequestSignature hmac ⟨appS, some ig, vt⟩ (some sig) buf =
        .error .sigMismatch ∧
      ∀ body, handlePost hmac ⟨appS, some ig, vt⟩ (some sig) buf body =
        .error .sigMismatch) := by
  have hne : sig ≠ "" := by
    intro h
    rw [h, sigHashOf_empty] at hsig
    exact Option.noConfusion hsig
  have hchar := verify_some_eq hmac appS ig vt sig buf hne hig
  rw [hsig] at hchar
  simp only [Option.some.injEq] at hchar
  constructor
  · rw [hchar]
    by_cases hc : hash = hmac appS buf ∨ hash = hmac ig buf
    · simp [hc]
    · simp [hc]
  · intro hc
    have herr : verifyRequestSignature hmac ⟨appS, some ig, vt⟩ (some sig) buf =
        .error .sigMismatch := by
      rw [hchar, if_neg hc]
    refine ⟨herr, fun body => ?_⟩
    simp only [handlePost, herr, exceptBindErr]

/-- Closed instance of C1 at concrete inputs: a header carrying the
digest under the primary secret is accepted. -/
theorem verify_two_secrets_witness :
    verifyRequestSignature (fun s b => s ++ ":" ++ b) ⟨"k1", some "k2", "t"⟩
      (some "sha256=k1:hello") "hello" = .ok () :=
  (verify_two_secrets (fun s b => s ++ ":" ++ b) "k1" "k2" "t"
      "sha256=k1:hello" "hello" "k1:hello" (by decide) rfl).1.mpr
    (Or.inl rfl)

/-- Splitting a list on a separator that first occurs right after a
separator-free chunk peels off that chunk. -/
theorem splitOnChar_append_sep (c : Char) (p rest : List Char)
    (hp : c ∉ p) :
    splitOnChar c (p ++ c :: rest) = p :: splitOnChar c rest := by
  induction p with
  | nil => simp [splitOnChar]
  | cons x xs ih =>
    have hx : ¬(x = c) := fun h => hp (by simp [h])
    have hxs : c ∉ xs := fun h => hp (List.mem_cons_of_mem _ h)
    simp only [List.cons_append, splitOnChar, if_neg hx, List.append_eq,
      ih hxs]

/-- The hash part the verifier extracts from a header of the shape
`<prefix>=<hex>` does not depend on the prefix (as long as the prefix
itself contains no `=`). -/
theorem sigHashOf_prefixed (p hex : String) (hp : '=' ∉ p.data) :
    sigHashOf (p ++ "=" ++ hex) =
      ((splitOnChar '=' hex.data).map (fun cs => String.mk cs))[0]? := by
  have hdata : (p ++ "=" ++ hex).data = p.data ++ '=' :: hex.data := by
    rw [String.data_append, String.data_append, List.append_assoc]
    rfl
  rw [sigHashOf, jsSplitEq, hdata, splitOnChar_append_sep _ _ _ hp]
  simp

/-- C9: the verifier never validates the algorithm part of the signature
header: for any two headers `<p1>=<hex>` and `<p2>=<hex>` with the same
hex part after the first `=` (the prefixes containing no `=`), the
verifier's outcome is identical — e.g. a header with prefix `md5` is
accepted exactly as if the prefix were `sha256`. -/
theorem verify_ignores_algorithm_prefix (hmac : String → String → String)
    (cfg : Config) (p1 p2 hex buf : String)
    (hp1 : '=' ∉ p1.data) (hp2 : '=' ∉ p2.data) :
    verifyRequestSignature hmac cfg (some (p1 ++ "=" ++ hex)) buf =
      verifyRequestSignature hmac cfg (some (p2 ++ "=" ++ hex)) buf := by
  have hne : ∀ p : String, (p ++ "=" ++ hex) ≠ "" := by
    intro p h
    have := congrArg String.data h
    rw [String.data_append, String.data_append] at this
    simp at this
  have hsig : sigHashOf (p1 ++ "=" ++ hex) = sigHashOf (p2 ++ "=" ++ hex) := by
    rw [sigHashOf_prefixed p1 hex hp1, sigHashOf_prefixed p2 hex hp2]
  simp only [verifyRequestSignature, if_neg (hne p1), if_neg (hne p2), hsig]

/-- Closed instance of C9: `md5=deadbeef` and `sha256=deadbeef` get the
same verdict. -/
theorem verify_ignores_algorithm_prefix_witness :
    verifyRequestSignature (fun s b => s ++ b) ⟨"k", none, "t"⟩
        (some ("md5" ++ "=" ++ "deadbeef")) "b" =
      verifyRequestSignature (fun s b => s ++ b) ⟨"k", none, "t"⟩
        (some ("sha256" ++ "=" ++ "deadbeef")) "b" :=
  verify_ignores_algorithm_prefix (fun s b => s ++ b) ⟨"k", none, "t"⟩
    "md5" "sha256" "deadbeef" "b" (by decide) (by decide)

/-- C2 counterexample: a body that passes JSON parsing and carries the
recognized kind `whatsapp_business_account` but no `entry` array makes
the POST handler throw a `TypeError` (`req.body.entry.forEach` on
`undefined`), so the response is not the promised 200
`"EVENT_RECEIVED"` (Express turns the throw into a 500). -/
theorem post_webhook_not_always_200 :
    postWebhook (.obj [("object", .str "whatsapp_business_account")]) =
      .error .typeError :=
  rfl

/-- C2 (amended): whenever the POST `/webhook` handler completes without
a thrown error its response is status 200 with body `"EVENT_RECEIVED"`;
and whenever the top-level `object` field is an unrecognized kind it
does complete: no handler is invoked, no error is raised, and the
response is 200 `"EVENT_RECEIVED"`. -/
theorem post_webhook_ack (body : JVal) :
    (∀ calls st resp, postWebhook body = .ok (calls, st, resp) →
      st = 200 ∧ resp = "EVENT_RECEIVED") ∧
    (∀ v, getField body "object" = .ok v →
      strictEqStr v "whatsapp_business_account" = false →
      strictEqStr v "instagram" = false →
      postWebhook body = .ok ([], 200, "EVENT_RECEIVED")) := by
  constructor
  · intro calls st resp h
    unfold postWebhook at h
    cases hd : dispatch body <;> rw [hd] at h <;> simp [Except.map] at h
    exact ⟨h.2.1.symm, h.2.2.symm⟩
  · intro v hv hw hi
    simp [postWebhook, dispatch, hv, hw, hi, Except.map]

/-- Closed instance of C2 (amended) at a concrete unrecognized kind. -/
theorem post_webhook_ack_witness :
    postWebhook (.obj [("object", .str "page")]) =
      .ok ([], 200, "EVENT_RECEIVED") :=
  (post_webhook_ack (.obj [("object", .str "page")])).2
    (.str "page") rfl rfl rfl

/-- C10: an instagram entry whose `messaging` field is a truthy value is
processed through the `messaging` array alone: the recorded handler
calls are exactly those of its messaging events, and the value of the
`changes` field is irrelevant — replacing it by anything else (so in
particular by any other array of change elements) leaves the result
unchanged, i.e. no element of `changes` invokes any handler. -/
theorem ig_entry_messaging_shadows_changes (fs : List (String × JVal))
    (m c1 c2 : JVal) (hm : truthy m = true) :
    processIgEntry (.obj (("messaging", m) :: ("changes", c1) :: fs)) =
      forEachJ m
        (igMessagingEvent (.obj (("messaging", m) :: ("changes", c1) :: fs))) ∧
    processIgEntry (.obj (("messaging", m) :: ("changes", c1) :: fs)) =
      processIgEntry (.obj (("messaging", m) :: ("changes", c2) :: fs)) := by
  have hget : ∀ c : JVal,
      getField (JVal.obj (("messaging", m) :: ("changes", c) :: fs))
        "messaging" = .ok m := fun c => rfl
  have hid : ∀ c : JVal,
      getField (JVal.obj (("messaging", m) :: ("changes", c) :: fs)) "id" =
        .ok ((fs.lookup "id").getD .undefined) := fun c => rfl
  have hfun :
      igMessagingEvent (JVal.obj (("messaging", m) :: ("changes", c1) :: fs)) =
        igMessagingEvent
          (JVal.obj (("messaging", m) :: ("changes", c2) :: fs)) := by
    funext ev
    simp only [igMessagingEvent, hid c1, hid c2]
  constructor
  · simp only [processIgEntry, hget c1, exceptBindOk, hm, if_true]
  · simp only [processIgEntry, hget c1, hget c2, exceptBindOk, hm, if_true,
      hfun]

/-- Closed instance of C10 at concrete inputs: an entry holding both a
messaging array and a changes array yields the same calls as with the
changes array emptied. -/
theorem ig_entry_messaging_shadows_changes_witness :
    processIgEntry (.obj [("messaging", .arr []),
        ("changes", .arr [.str "x"])]) =
      processIgEntry (.obj [("messaging", .arr []), ("changes", .arr [])]) :=
  (ig_entry_messaging_shadows_changes [] (.arr []) (.arr [.str "x"])
    (.arr []) rfl).2

/-- The pure value of the constructor's sender resolution on an object
event. -/
def senderValOf (fs : List (String × JVal)) : JVal :=
  if truthy (objGet fs "from") then objGet fs "from"
  else if truthy (objGet fs "sender") then
    getFieldVal (objGet fs "sender") "id"
  else .undefined

theorem msgSender_obj (fs : List (String × JVal)) :
    msgSender (.obj fs) = .ok (senderValOf fs) := by
  simp only [msgSender, getField_obj, exceptBindOk, senderValOf]
  by_cases h1 : truthy (objGet fs "from") = true
  · simp [h1]
  · by_cases h2 : truthy (objGet fs "sender") = true
    · simp [h1, h2, getField_of_truthy _ h2]
    · simp [h1, h2]

theorem mkMessage_obj (fs : List (String × JVal)) :
    mkMessage (.obj fs) =
      (msgTypeText (.obj fs)).map
        (fun tt => ⟨objGet fs "id", tt.1, tt.2, senderValOf fs⟩) := by
  simp only [mkMessage, getField_obj, exceptBindOk]
  cases ht : msgTypeText (.obj fs) with
  | error e => simp [ht, Except.map]
  | ok tt => simp [ht, msgSender_obj, Except.map]

theorem mkMessage_of_typeText (fs : List (String × JVal)) {tt : JVal × JVal}
    (h : msgTypeText (.obj fs) = .ok tt) :
    mkMessage (.obj fs) = .ok ⟨objGet fs "id", tt.1, tt.2, senderValOf fs⟩ := by
  rw [mkMessage_obj, h]
  rfl

theorem msgTypeText_interactive (fs : List (String × JVal))
    {buttonReply replyId : JVal}
    (hty : strictEqStr (objGet fs "type") "interactive" = true)
    (hbr : getField (objGet fs "interactive") "button_reply" = .ok buttonReply)
    (hid : getField buttonReply "id" = .ok replyId) :
    msgTypeText (.obj fs) = .ok (replyId, .undefined) := by
  simp [msgTypeText, getField_obj, hty, hbr, hid]

theorem msgTypeText_text (fs : List (String × JVal)) {body : JVal}
    (hty : strictEqStr (objGet fs "type") "interactive" = false)
    (htx : truthy (objGet fs "text") = true)
    (hb : getField (objGet fs "text") "body" = .ok body) :
    msgTypeText (.obj fs) =
      .ok (.str "text", if truthy body then body else objGet fs "text") := by
  simp [msgTypeText, getField_obj, hty, htx, hb]

theorem msgTypeText_nested (fs : List (String × JVal)) {mt : JVal}
    (hty : strictEqStr (objGet fs "type") "interactive" = false)
    (htx : truthy (objGet fs "text") = false)
    (hmsg : truthy (objGet fs "message") = true)
    (hmt : getField (objGet fs "message") "text" = .ok mt)
    (hmtt : truthy mt = true) :
    msgTypeText (.obj fs) = .ok (.str "text", mt) := by
  simp [msgTypeText, getField_obj, hty, htx, hmsg, hmt, hmtt]

theorem msgTypeText_unknown (fs : List (String × JVal))
    (hty : strictEqStr (objGet fs "type") "interactive" = false)
    (htx : truthy (objGet fs "text") = false)
    (h : truthy (objGet fs "message") = false ∨
      ∃ mt, getField (objGet fs "message") "text" = .ok mt ∧
        truthy mt = false) :
    msgTypeText (.obj fs) = .ok (.str "unknown", .undefined) := by
  rcases h with h | ⟨mt, hmt, hmtt⟩
  · simp [msgTypeText, getField_obj, hty, htx, h]
  · simp [msgTypeText, getField_obj, hty, htx, hmt, hmtt]

theorem msgTypeText_total (fs : List (String × JVal))
    (hty : strictEqStr (objGet fs "type") "interactive" = false) :
    ∃ tt, msgTypeText (.obj fs) = .ok tt := by
  cases htx : truthy (objGet fs "text") with
  | true => exact ⟨_, msgTypeText_text fs hty htx (getField_of_truthy _ htx)⟩
  | false =>
    cases hmsg : truthy (objGet fs "message") with
    | false => exact ⟨_, msgTypeText_unknown fs hty htx (Or.inl hmsg)⟩
    | true =>
      have hmt := getField_of_truthy "text" hmsg
      cases hmtt : truthy (getFieldVal (objGet fs "message") "text") with
      | true => exact ⟨_, msgTypeText_nested fs hty htx hmsg hmt hmtt⟩
      | false =>
        exact ⟨_, msgTypeText_unknown fs hty htx (Or.inr ⟨_, hmt, hmtt⟩)⟩

/-- C3 counterexample: the direct-text event `{text:{body:""}}` is
normalized to type `"text"` but its `text` is the whole `text` object
(`text.body || text` with a falsy body), not the body content `""`. -/
theorem message_text_not_body_content :
    mkMessage (.obj [("text", .obj [("body", .str "")])]) =
      .ok ⟨.undefined, .str "text",
        .obj [("body", .str "")], .undefined⟩ ∧
    JVal.obj [("body", .str "")] ≠ JVal.str "" :=
  ⟨rfl, fun h => JVal.noConfusion h⟩

/-- C3 (amended): first-match type resolution of the normalizer on an
event object: a `type === "interactive"` event with a button-reply shape
yields type equal to the reply identifier itself; otherwise a truthy
direct `text` field yields type `"text"` with text equal to the body
content when that body is truthy and the whole `text` value otherwise;
otherwise a truthy nested `message` with truthy `message.text` yields
type `"text"` with the nested text; otherwise type `"unknown"`. -/
theorem message_type_resolution (fs : List (String × JVal)) :
    (∀ buttonReply replyId : JVal,
      strictEqStr (objGet fs "type") "interactive" = true →
      getField (objGet fs "interactive") "button_reply" = .ok buttonReply →
      getField buttonReply "id" = .ok replyId →
      ∀ m : MessageRec, mkMessage (.obj fs) = .ok m → m.type = replyId) ∧
    (∀ body : JVal,
      strictEqStr (objGet fs "type") "interactive" = false →
      truthy (objGet fs "text") = true →
      getField (objGet fs "text") "body" = .ok body →
      ∀ m : MessageRec, mkMessage (.obj fs) = .ok m →
        m.type = .str "text" ∧
        m.text = (if truthy body then body else objGet fs "text")) ∧
    (∀ mt : JVal,
      strictEqStr (objGet fs "type") "interactive" = false →
      truthy (objGet fs "text") = false →
      truthy (objGet fs "message") = true →
      getField (objGet fs "message") "text" = .ok mt →
      truthy mt = true →
      ∀ m : MessageRec, mkMessage (.obj fs) = .ok m →
        m.type = .str "text" ∧ m.text = mt) ∧
    (strictEqStr (objGet fs "type") "interactive" = false →
      truthy (objGet fs "text") = false →
      (truthy (objGet fs "message") = false ∨
        ∃ mt, getField (objGet fs "message") "text" = .ok mt ∧
          truthy mt = false) →
      ∀ m : MessageRec, mkMessage (.obj fs) = .ok m →
        m.type = .str "unknown") := by
  refine ⟨?_, ?_, ?_, ?_⟩
  · intro buttonReply replyId hty hbr hid m hm
    rw [mkMessage_of_typeText fs (msgTypeText_interactive fs hty hbr hid)]
      at hm
    injection hm with h
    subst h
    rfl
  · intro body hty htx hb m hm
    rw [mkMessage_of_typeText fs (msgTypeText_text fs hty htx hb)] at hm
    injection hm with h
    subst h
    exact ⟨rfl, rfl⟩
  · intro mt hty htx hmsg hmt hmtt m hm
    rw [mkMessage_of_typeText fs
      (msgTypeText_nested fs hty htx hmsg hmt hmtt)] at hm
    injection hm with h
    subst h
    exact ⟨rfl, rfl⟩
  · intro hty htx h m hm
    rw [mkMessage_of_typeText fs (msgTypeText_unknown fs hty htx h)] at hm
    injection hm with h
    subst h
    rfl

/-- Closed instance of C3 (amended): the interactive button reply
`BUY_NOW` becomes the type itself. -/
theorem message_type_resolution_witness :
    mkMessage (.obj
        [("type", .str "interactive"),
         ("interactive", .obj [("button_reply", .obj [("id", .str "BUY_NOW")])])]) =
      .ok ⟨.undefined, .str "BUY_NOW", .undefined, .undefined⟩ ∧
    (MessageRec.mk .undefined (.str "BUY_NOW") .undefined .undefined).type =
      .str "BUY_NOW" :=
  ⟨rfl,
   (message_type_resolution
      [("type", .str "interactive"),
       ("interactive", .obj [("button_reply", .obj [("id", .str "BUY_NOW")])])]).1
     (.obj [("id", .str "BUY_NOW")]) (.str "BUY_NOW") rfl rfl rfl
     ⟨.undefined, .str "BUY_NOW", .undefined, .undefined⟩ rfl⟩

/-- C6 counterexample: the constructor is not total — on the event
object `{type:"interactive"}` without the interactive button-reply
shape, `rawMessage.interactive.button_reply` is a property read on
`undefined` and throws. -/
theorem message_interactive_missing_shape_throws :
    mkMessage (.obj [("type", .str "interactive")]) = .error .typeError :=
  rfl

/-- C6 (amended): the constructor returns normally on every raw event
object whose `type` is not `"interactive"` (it throws when `type` is
`"interactive"` but the button-reply shape is missing); the sender
resolves to the `from` field when truthy, else to the nested
`sender.id`, else to `undefined`, and an undefined sender is a normal
result, not an error. -/
theorem message_constructor_total_and_sender (fs : List (String × JVal)) :
    (strictEqStr (objGet fs "type") "interactive" = false →
      ∃ m, mkMessage (.obj fs) = .ok m) ∧
    (truthy (objGet fs "from") = true →
      ∀ m : MessageRec, mkMessage (.obj fs) = .ok m →
        m.senderPhoneNumber = objGet fs "from") ∧
    (truthy (objGet fs "from") = false →
      truthy (objGet fs "sender") = true →
      ∀ v, getField (objGet fs "sender") "id" = .ok v →
      ∀ m : MessageRec, mkMessage (.obj fs) = .ok m →
        m.senderPhoneNumber = v) ∧
    (truthy (objGet fs "from") = false →
      truthy (objGet fs "sender") = false →
      ∀ m : MessageRec, mkMessage (.obj fs) = .ok m →
        m.senderPhoneNumber = JVal.undefined) := by
  have hsender : ∀ m : MessageRec, mkMessage (.obj fs) = .ok m →
      m.senderPhoneNumber = senderValOf fs := by
    intro m hm
    rw [mkMessage_obj] at hm
    cases ht : msgTypeText (.obj fs) with
    | error e => rw [ht] at hm; exact Except.noConfusion hm
    | ok tt =>
      rw [ht] at hm
      injection hm with h
      subst h
      rfl
  refine ⟨?_, ?_, ?_, ?_⟩
  · intro hty
    obtain ⟨tt, htt⟩ := msgTypeText_total fs hty
    exact ⟨_, mkMessage_of_typeText fs htt⟩
  · intro hf m hm
    rw [hsender m hm, senderValOf, if_pos hf]
  · intro hf hs v hv m hm
    rw [getField_of_truthy _ hs] at hv
    injection hv with h
    rw [hsender m hm, senderValOf, hf, hs, h]
    simp
  · intro hf hs m hm
    rw [hsender m hm, senderValOf, hf, hs]
    simp

/-- Closed instance of C6 (amended): a plain text event is normalized
without error. -/
theorem message_constructor_total_and_sender_witness :
    ∃ m, mkMessage (.obj [("text", .obj [("body", .str "hi")])]) = .ok m :=
  (message_constructor_total_and_sender
    [("text", .obj [("body", .str "hi")])]).1 rfl

end WhatsappQMS
